import Mathlib

/-!
Verification of the pwa-maxim recommendation core against its description.

The development shallowly embeds the TypeScript sources:
* `src/lib/engine/scoring.ts` — `Weights`, `defaultWeights`, `normalizeLog`,
  `score`, `updateWeightsFromOutcome`;
* `src/lib/engine/features.ts` — `CellFeatures`, `buildCellFeatures`,
  `haversineKm`, `computeRainRiskNext3h`, and the Explainer `explain`;
* `src/lib/grid.ts` — `latLonToCellKey`, `binPointsToCells`;
* `src/lib/signals.ts` — the signal cache (`getOrFetchSignal`,
  `isCacheValid`, `isInCooldown`, `buildResult`, `getAgeSeconds`).

JavaScript numbers are modelled as real numbers (`ℝ`) in the scoring /
feature pipeline, and as integers (millisecond epoch timestamps, `ℤ`) and
rationals (`ℚ`) in the cache layer, where every operation is exact integer
or rational arithmetic so that the definitions stay executable.
ISO-8601 timestamp strings are modelled by the integer millisecond value
that `new Date(s).getTime()` parses them to.
-/

/-! ## Scoring (src/lib/engine/scoring.ts) -/

/-- The weight vector, from `scoring.ts`. -/
structure Weights where
  wInternal : ℝ
  wRecency : ℝ
  wPoi : ℝ
  wTravel : ℝ
  wRain : ℝ

/-- Source `defaultWeights()` from `scoring.ts`. -/
noncomputable def defaultWeights : Weights :=
  { wInternal := 1.0
    wRecency := 0.5
    wPoi := 0.25
    wTravel := -0.6
    wRain := -0.2 }

/-- Source `normalizeLog(value) = Math.log1p(Math.max(value, 0))`; the same local
function appears verbatim in `scoring.ts` and in the Explainer part of
`features.ts`.  `Math.log1p x = log (1 + x)`. -/
noncomputable def normalizeLog (value : ℝ) : ℝ :=
  Real.log (1 + max value 0)

/-- The feature record produced by `buildCellFeatures` in `features.ts`. -/
structure CellFeatures where
  internalEph : ℝ
  internalCount : ℕ
  recencyScore : ℝ
  poiCount : ℝ
  rainRiskNext3h : ℝ
  travelKm : ℝ
  travelCost : ℝ
  hour : ℤ
  dow : ℤ

/-- Source `const rainRisk = Math.min(Math.max(features.rainRiskNext3h, 0), 1)`
from `score` (the identical expression appears in `explain`). -/
noncomputable def rainRiskClamped (features : CellFeatures) : ℝ :=
  min (max features.rainRiskNext3h 0) 1

/-- Source `const wPoiAdj = rainHeavy ? weights.wPoi * 1.2 : weights.wPoi` where
`rainHeavy = rainRisk >= 0.6`, from `score` and `explain`. -/
noncomputable def wPoiAdj (features : CellFeatures) (weights : Weights) : ℝ :=
  if rainRiskClamped features ≥ 0.6 then weights.wPoi * 1.2 else weights.wPoi

/-- Source `const wTravelAdj = rainHeavy ? weights.wTravel * 1.3 : weights.wTravel`
from `score` and `explain`. -/
noncomputable def wTravelAdj (features : CellFeatures) (weights : Weights) : ℝ :=
  if rainRiskClamped features ≥ 0.6 then weights.wTravel * 1.3 else weights.wTravel

/-- Source `score(features, weights)` from `scoring.ts`. -/
noncomputable def score (features : CellFeatures) (weights : Weights) : ℝ :=
  weights.wInternal * normalizeLog features.internalEph +
    weights.wRecency * features.recencyScore +
    wPoiAdj features weights * normalizeLog features.poiCount +
    wTravelAdj features weights * normalizeLog features.travelCost +
    weights.wRain * rainRiskClamped features

/-- Source `const safePred = Math.max(predictedScoreAtStart, 1)` from
`updateWeightsFromOutcome`. -/
noncomputable def safePred (predictedScoreAtStart : ℝ) : ℝ :=
  max predictedScoreAtStart 1

/-- Source `updateWeightsFromOutcome` with arguments predictedScoreAtStart, actualEph, weights,
from `scoring.ts`. -/
noncomputable def updateWeightsFromOutcome (predictedScoreAtStart actualEph : ℝ)
    (weights : Weights) : Weights :=
  let ratio := (actualEph - safePred predictedScoreAtStart) / safePred predictedScoreAtStart
  let clipped := max (min ratio 0.2) (-0.2)
  let lr : ℝ := 0.05
  let delta := clipped * lr
  { wInternal := weights.wInternal + delta
    wRecency := weights.wRecency + delta / 2
    wPoi := weights.wPoi + delta / 3
    wTravel := weights.wTravel - delta / 2
    wRain := weights.wRain - delta / 3 }

/-! ## Explainer (second half of src/lib/engine/features.ts) -/

/-- One element of the `contributions` array built by `explain`. -/
structure Contribution where
  key : String
  value : ℝ
  reason : String

/-- The `contributions` array built by `explain(features, weights)` in
`features.ts`, in source order: internal, recency, poi, travel, rain.
`explain` then sorts these by `|value|` descending and returns the top-3
`reason` strings; the claims are about the `value` fields. -/
noncomputable def explainContributions (features : CellFeatures) (weights : Weights) :
    List Contribution :=
  [ { key := "internal"
      value := weights.wInternal * normalizeLog features.internalEph
      reason := "Riwayat jam ini bagus" }
  , { key := "recency"
      value := weights.wRecency * features.recencyScore
      reason := "Aktivitas terbaru mendukung" }
  , { key := "poi"
      value := wPoiAdj features weights * normalizeLog features.poiCount
      reason := "POI padat di sekitar" }
  , { key := "travel"
      value := wTravelAdj features weights * normalizeLog features.travelCost
      reason := if features.travelKm ≤ 2 then "Dekat dari posisi sekarang"
        else "Biaya pindah lumayan" }
  , { key := "rain"
      value := weights.wRain * rainRiskClamped features
      reason := if rainRiskClamped features ≥ 0.6 then "Risiko hujan tinggi (lebih baik indoor)"
        else "Cuaca relatif aman" } ]

/-- C1: for every feature record and weight vector, the five per-term
contribution values computed by the Explainer (internal, recency, POI,
travel, rain, with the same `rainHeavy ≥ 0.6` weight adjustment as the
Scorer) sum exactly to the Scorer output `score features weights`. -/
theorem explain_contributions_sum_eq_score (features : CellFeatures) (weights : Weights) :
    ((explainContributions features weights).map Contribution.value).sum =
      score features weights := by
  simp [explainContributions, score]
  ring

/-- C3: a single `updateWeightsFromOutcome` step never moves any weight
component further than its clamp allows: the clipped ratio lies in
[-0.2, 0.2], the learning rate is 0.05, so `wInternal` moves by at most
0.01, `wRecency` and `wTravel` by at most 0.005, and `wPoi` and `wRain`
by at most 0.01/3, for every input. -/
theorem updateWeightsFromOutcome_bounded (p a : ℝ) (w : Weights) :
    |(updateWeightsFromOutcome p a w).wInternal - w.wInternal| ≤ 0.01 ∧
    |(updateWeightsFromOutcome p a w).wRecency - w.wRecency| ≤ 0.005 ∧
    |(updateWeightsFromOutcome p a w).wPoi - w.wPoi| ≤ 0.01 / 3 ∧
    |(updateWeightsFromOutcome p a w).wTravel - w.wTravel| ≤ 0.005 ∧
    |(updateWeightsFromOutcome p a w).wRain - w.wRain| ≤ 0.01 / 3 := by
  set c := max (min ((a - safePred p) / safePred p) 0.2) (-0.2) with hc
  have habs : |c| ≤ 0.2 := by
    rw [abs_le]
    refine ⟨le_max_right _ _, max_le (min_le_right _ _) (by norm_num)⟩
  have hd : |c * 0.05| ≤ 0.01 := by
    rw [abs_mul, abs_of_nonneg (by norm_num : (0 : ℝ) ≤ 0.05)]
    calc |c| * 0.05 ≤ 0.2 * 0.05 :=
          mul_le_mul_of_nonneg_right habs (by norm_num)
      _ = 0.01 := by norm_num
  have e1 : (updateWeightsFromOutcome p a w).wInternal - w.wInternal = c * 0.05 := by
    simp only [updateWeightsFromOutcome, ← hc]
    ring
  have e2 : (updateWeightsFromOutcome p a w).wRecency - w.wRecency = c * 0.05 / 2 := by
    simp only [updateWeightsFromOutcome, ← hc]
    ring
  have e3 : (updateWeightsFromOutcome p a w).wPoi - w.wPoi = c * 0.05 / 3 := by
    simp only [updateWeightsFromOutcome, ← hc]
    ring
  have e4 : (updateWeightsFromOutcome p a w).wTravel - w.wTravel = -(c * 0.05 / 2) := by
    simp only [updateWeightsFromOutcome, ← hc]
    ring
  have e5 : (updateWeightsFromOutcome p a w).wRain - w.wRain = -(c * 0.05 / 3) := by
    simp only [updateWeightsFromOutcome, ← hc]
    ring
  have h2 : |c * 0.05| / 2 ≤ 0.005 := by
    calc |c * 0.05| / 2 ≤ 0.01 / 2 :=
          (div_le_div_right (by norm_num : (0 : ℝ) < 2)).mpr hd
      _ = 0.005 := by norm_num
  have h3 : |c * 0.05| / 3 ≤ 0.01 / 3 :=
    (div_le_div_right (by norm_num : (0 : ℝ) < 3)).mpr hd
  refine ⟨?_, ?_, ?_, ?_, ?_⟩
  · rw [e1]; exact hd
  · rw [e2, abs_div, abs_of_nonneg (by norm_num : (0 : ℝ) ≤ 2)]
    exact h2
  · rw [e3, abs_div, abs_of_nonneg (by norm_num : (0 : ℝ) ≤ 3)]
    exact h3
  · rw [e4, abs_neg, abs_div, abs_of_nonneg (by norm_num : (0 : ℝ) ≤ 2)]
    exact h2
  · rw [e5, abs_neg, abs_div, abs_of_nonneg (by norm_num : (0 : ℝ) ≤ 3)]
    exact h3

/-- C6: the weather-adaptive reweighting threshold sits exactly at 0.6,
inclusive: when the clamped rain risk is at least 0.6 the Scorer uses
effective POI weight `wPoi * 1.2` and effective travel weight
`wTravel * 1.3`, and when it is strictly below 0.6 the effective weights
equal the base weights exactly — stated both on the effective weights and
on the resulting `score`. -/
theorem score_rain_threshold (features : CellFeatures) (weights : Weights) :
    (rainRiskClamped features ≥ 0.6 →
      wPoiAdj features weights = weights.wPoi * 1.2 ∧
      wTravelAdj features weights = weights.wTravel * 1.3 ∧
      score features weights =
        weights.wInternal * normalizeLog features.internalEph +
          weights.wRecency * features.recencyScore +
          weights.wPoi * 1.2 * normalizeLog features.poiCount +
          weights.wTravel * 1.3 * normalizeLog features.travelCost +
          weights.wRain * rainRiskClamped features) ∧
    (rainRiskClamped features < 0.6 →
      wPoiAdj features weights = weights.wPoi ∧
      wTravelAdj features weights = weights.wTravel ∧
      score features weights =
        weights.wInternal * normalizeLog features.internalEph +
          weights.wRecency * features.recencyScore +
          weights.wPoi * normalizeLog features.poiCount +
          weights.wTravel * normalizeLog features.travelCost +
          weights.wRain * rainRiskClamped features) := by
  constructor
  · intro h
    have hp : wPoiAdj features weights = weights.wPoi * 1.2 := by
      unfold wPoiAdj
      exact if_pos h
    have ht : wTravelAdj features weights = weights.wTravel * 1.3 := by
      unfold wTravelAdj
      exact if_pos h
    exact ⟨hp, ht, by rw [score, hp, ht]⟩
  · intro h
    have h' : ¬ rainRiskClamped features ≥ 0.6 := not_le.mpr h
    have hp : wPoiAdj features weights = weights.wPoi := by
      unfold wPoiAdj
      exact if_neg h'
    have ht : wTravelAdj features weights = weights.wTravel := by
      unfold wTravelAdj
      exact if_neg h'
    exact ⟨hp, ht, by rw [score, hp, ht]⟩

/-- Sample feature record with heavy rain (clamped rain risk 1), used to
witness the rain-adjusted branch of `score_rain_threshold`. -/
noncomputable def rainyFeatures : CellFeatures :=
  { internalEph := 40000, internalCount := 3, recencyScore := 0.5
    poiCount := 10, rainRiskNext3h := 1, travelKm := 1.5
    travelCost := 375, hour := 9, dow := 2 }

/-- Sample feature record with no rain (clamped rain risk 0), used to
witness the base branch of `score_rain_threshold`. -/
noncomputable def dryFeatures : CellFeatures :=
  { internalEph := 40000, internalCount := 3, recencyScore := 0.5
    poiCount := 10, rainRiskNext3h := 0, travelKm := 1.5
    travelCost := 375, hour := 9, dow := 2 }

/-- Witness for C6: the threshold theorem applied on both sides of 0.6 —
rain risk 1 (heavy) gets the 1.2/1.3-adjusted weights, rain risk 0 gets
the base weights. -/
theorem score_rain_threshold_witness :
    (score rainyFeatures defaultWeights =
      defaultWeights.wInternal * normalizeLog rainyFeatures.internalEph +
        defaultWeights.wRecency * rainyFeatures.recencyScore +
        defaultWeights.wPoi * 1.2 * normalizeLog rainyFeatures.poiCount +
        defaultWeights.wTravel * 1.3 * normalizeLog rainyFeatures.travelCost +
        defaultWeights.wRain * rainRiskClamped rainyFeatures) ∧
    (score dryFeatures defaultWeights =
      defaultWeights.wInternal * normalizeLog dryFeatures.internalEph +
        defaultWeights.wRecency * dryFeatures.recencyScore +
        defaultWeights.wPoi * normalizeLog dryFeatures.poiCount +
        defaultWeights.wTravel * normalizeLog dryFeatures.travelCost +
        defaultWeights.wRain * rainRiskClamped dryFeatures) := by
  have hrainy : rainRiskClamped rainyFeatures ≥ 0.6 := by
    unfold rainRiskClamped rainyFeatures
    norm_num
  have hdry : rainRiskClamped dryFeatures < 0.6 := by
    unfold rainRiskClamped dryFeatures
    norm_num
  exact ⟨((score_rain_threshold rainyFeatures defaultWeights).1 hrainy).2.2,
    ((score_rain_threshold dryFeatures defaultWeights).2 hdry).2.2⟩

/-- C10: `updateWeightsFromOutcome` is the identity exactly when the
realized earnings-per-hour equals the floored predicted score
`safePred p = max p 1` — then the ratio is 0, the delta is 0, and every
weight component is returned unchanged; conversely any other outcome
moves the weights. -/
theorem updateWeightsFromOutcome_identity_iff (p a : ℝ) (w : Weights) :
    updateWeightsFromOutcome p a w = w ↔ a = safePred p := by
  have hs1 : (1 : ℝ) ≤ safePred p := le_max_right p 1
  have hs0 : safePred p ≠ 0 := by positivity
  constructor
  · intro h
    have h1 : (updateWeightsFromOutcome p a w).wInternal = w.wInternal :=
      congrArg Weights.wInternal h
    simp only [updateWeightsFromOutcome] at h1
    have hd0 : max (min ((a - safePred p) / safePred p) 0.2) (-0.2) * 0.05 = 0 := by
      linarith
    have hc0 : max (min ((a - safePred p) / safePred p) 0.2) (-0.2) = 0 := by
      rcases mul_eq_zero.mp hd0 with h' | h'
      · exact h'
      · norm_num at h'
    set r := (a - safePred p) / safePred p with hr
    have hr0 : r = 0 := by
      rcases lt_trichotomy r 0 with hlt | heq | hgt
      · exfalso
        have : max (min r 0.2) (-0.2) < 0 :=
          max_lt (lt_of_le_of_lt (min_le_left _ _) hlt) (by norm_num)
        rw [hc0] at this
        exact lt_irrefl 0 this
      · exact heq
      · exfalso
        have : 0 < max (min r 0.2) (-0.2) :=
          lt_of_lt_of_le (lt_min hgt (by norm_num)) (le_max_left _ _)
        rw [hc0] at this
        exact lt_irrefl 0 this
    have : a - safePred p = 0 := by
      rcases div_eq_zero_iff.mp hr0 with h' | h'
      · exact h'
      · exact absurd h' hs0
    linarith
  · intro h
    have hr : (a - safePred p) / safePred p = 0 := by
      rw [h, sub_self, zero_div]
    have hcl : max (min ((a - safePred p) / safePred p) 0.2) (-0.2) = 0 := by
      rw [hr, min_eq_left (by norm_num : (0 : ℝ) ≤ 0.2)]
      exact max_eq_left (by norm_num)
    cases w with
    | mk wi wr wp wt wn =>
      simp [updateWeightsFromOutcome, hcl]

/-! ## Signal cache (src/lib/signals.ts)

Timestamps are millisecond epoch integers (`ℤ`): an ISO string field such
as `fetchedAt` is modelled by the value `new Date(s).getTime()` parses it
to, and every `Date.now()` call during one `getOrFetchSignal` invocation
is modelled by a single instant `now`.  The TTL is a JS number, modelled
as `ℚ`.  The backing Dexie store is modelled by the entry stored under the
requested key (`Option (SignalCache T)`), which is also what a call can
write back.  The fetcher is modelled by the outcome its promise settles
to: `Except.ok payload` or `Except.error e` for a thrown value `e`. -/

/-- A thrown JavaScript value: either an `Error` with a message or some
other throwable (`error instanceof Error` fails). -/
inductive JsError where
  | error (message : String)
  | other
  deriving DecidableEq

/-- Source `error instanceof Error ? error.message : "Gagal mengambil sinyal"`,
the message stored by the catch branch of `getOrFetchSignal`. -/
def errMessage : JsError → String
  | JsError.error message => message
  | JsError.other => "Gagal mengambil sinyal"

/-- The `signal_cache` record (`SignalCache` in `db.ts`, with the error
fields written by `signals.ts`).  `fetchedAt` is a non-nullable ISO string
in the store schema, so it is modelled as a plain integer timestamp. -/
structure SignalCache (T : Type) where
  key : String
  fetchedAt : ℤ
  ttlSeconds : ℚ
  payload : T
  lastErrorAt : Option ℤ
  lastErrorMessage : Option String
  deriving DecidableEq

/-- Type `SignalMeta` from `signals.ts`. -/
structure SignalMeta where
  fetchedAt : Option ℤ
  isFresh : Bool
  isStale : Bool
  ageSeconds : Option ℤ
  ttlSeconds : ℚ
  fromCache : Bool
  lastErrorAt : Option ℤ
  lastErrorMessage : Option String
  deriving DecidableEq

/-- Type `SignalResult<T>` from `signals.ts`. -/
structure SignalResult (T : Type) where
  payload : T
  meta : SignalMeta
  deriving DecidableEq

/-- Type `SignalOptions` from `signals.ts`; each field may be omitted. -/
structure SignalOptions where
  forceRefresh : Option Bool
  allowNetwork : Option Bool
  allowStale : Option Bool
  deriving DecidableEq

/-- Source `const COOLDOWN_SECONDS = 5 * 60` from `signals.ts`. -/
def COOLDOWN_SECONDS : ℤ := 5 * 60

/-- Source `isCacheValid(cache)`: `Date.now() - fetchedAt < cache.ttlSeconds * 1000`
(milliseconds, strict less-than). -/
def isCacheValid {T : Type} (cache : SignalCache T) (now : ℤ) : Bool :=
  decide (((now - cache.fetchedAt : ℤ) : ℚ) < cache.ttlSeconds * 1000)

/-- Source `isInCooldown(cache)`: false when `lastErrorAt` is null, otherwise
`Date.now() - lastErrorAt < COOLDOWN_SECONDS * 1000`. -/
def isInCooldown {T : Type} (cache : SignalCache T) (now : ℤ) : Bool :=
  match cache.lastErrorAt with
  | none => false
  | some lastErrorAt => decide (now - lastErrorAt < COOLDOWN_SECONDS * 1000)

/-- Source `getAgeSeconds(fetchedAt) = Math.max(0, Math.floor(ageMs / 1000))`.
The source returns null for a null `fetchedAt`; the store schema makes
`fetchedAt` non-nullable, so the result is always non-null here. -/
def getAgeSeconds (fetchedAt now : ℤ) : Option ℤ :=
  some (max 0 ⌊((now - fetchedAt : ℤ) : ℚ) / 1000⌋)

/-- Source `buildResult(cache, fromCache)` from `signals.ts`: age in whole
seconds, `isFresh = ageSeconds < ttlSeconds` (null age would be stale),
`isStale = !isFresh`, and the stored error metadata passed through. -/
def buildResult {T : Type} (cache : SignalCache T) (fromCache : Bool) (now : ℤ) :
    SignalResult T :=
  let ageSeconds := getAgeSeconds cache.fetchedAt now
  let isFresh := match ageSeconds with
    | some age => decide ((age : ℚ) < cache.ttlSeconds)
    | none => false
  { payload := cache.payload
    meta :=
      { fetchedAt := some cache.fetchedAt
        isFresh := isFresh
        isStale := !isFresh
        ageSeconds := ageSeconds
        ttlSeconds := cache.ttlSeconds
        fromCache := fromCache
        lastErrorAt := cache.lastErrorAt
        lastErrorMessage := cache.lastErrorMessage } }

/-- Source `getOrFetchSignal(key, ttlSeconds, fetcher, options)` from
`signals.ts`, as a pure function of the stored entry for `key`
(`cached`), the fetcher outcome (`fetchResult`, examined only when the
source awaits the fetcher), and the call instant `now`.  The returned
pair carries the `SignalResult` and the store entry after the call; a
thrown error is `Except.error`. -/
def getOrFetchSignal {T : Type} (key : String) (ttlSeconds : ℚ)
    (fetchResult : Except JsError T) (options : Option SignalOptions)
    (cached : Option (SignalCache T)) (now : ℤ) :
    Except JsError (SignalResult T × Option (SignalCache T)) :=
  let allowNetwork := (options.bind SignalOptions.allowNetwork).getD true
  let allowStale := (options.bind SignalOptions.allowStale).getD false
  let forceRefresh := (options.bind SignalOptions.forceRefresh).getD false
  match cached with
  | some c =>
      if !forceRefresh && (isCacheValid c now || allowStale) then
        Except.ok (buildResult c true now, some c)
      else if isInCooldown c now then
        Except.ok (buildResult c true now, some c)
      else if !allowNetwork then
        Except.ok (buildResult c true now, some c)
      else
        match fetchResult with
        | Except.ok payload =>
            let record : SignalCache T :=
              { key := key, fetchedAt := now, ttlSeconds := ttlSeconds
                payload := payload, lastErrorAt := none, lastErrorMessage := none }
            Except.ok (buildResult record false now, some record)
        | Except.error e =>
            let updated : SignalCache T :=
              { c with lastErrorAt := some now
                       lastErrorMessage := some (errMessage e) }
            Except.ok (buildResult updated true now, some updated)
  | none =>
      if !allowNetwork then
        Except.error (JsError.error "Offline dan cache belum tersedia.")
      else
        match fetchResult with
        | Except.ok payload =>
            let record : SignalCache T :=
              { key := key, fetchedAt := now, ttlSeconds := ttlSeconds
                payload := payload, lastErrorAt := none, lastErrorMessage := none }
            Except.ok (buildResult record false now, some record)
        | Except.error e => Except.error e

/-- C7: with network disallowed, `getOrFetchSignal` fails with the
"no cache available offline" error exactly when no cache entry exists;
whenever any entry exists it is returned (payload from cache,
`fromCache = true`, store unchanged), and the fetcher outcome is never
examined (the result does not depend on `fetchResult`). -/
theorem getOrFetchSignal_offline {T : Type} (key : String) (ttlSeconds : ℚ)
    (fetchResult : Except JsError T) (options : Option SignalOptions)
    (c : SignalCache T) (now : ℤ)
    (hnet : (options.bind SignalOptions.allowNetwork).getD true = false) :
    getOrFetchSignal key ttlSeconds fetchResult options none now =
      Except.error (JsError.error "Offline dan cache belum tersedia.") ∧
    getOrFetchSignal key ttlSeconds fetchResult options (some c) now =
      Except.ok (buildResult c true now, some c) := by
  constructor
  · simp [getOrFetchSignal, hnet]
  · simp [getOrFetchSignal, hnet]

/-- Witness for C7: an empty store plus offline options rejects with the
offline error, and a populated store returns the cached entry, for a
concrete key, TTL, entry and fetcher outcome. -/
theorem getOrFetchSignal_offline_witness :
    getOrFetchSignal "poi:bbox1" 21600 (Except.ok 7)
        (some { forceRefresh := none, allowNetwork := some false, allowStale := none })
        (none : Option (SignalCache ℕ)) 1700000000000 =
      Except.error (JsError.error "Offline dan cache belum tersedia.") ∧
    getOrFetchSignal "poi:bbox1" 21600 (Except.ok 7)
        (some { forceRefresh := none, allowNetwork := some false, allowStale := none })
        (some { key := "poi:bbox1", fetchedAt := 1690000000000, ttlSeconds := 21600,
                payload := 3, lastErrorAt := none, lastErrorMessage := none }) 1700000000000 =
      Except.ok
        (buildResult { key := "poi:bbox1", fetchedAt := 1690000000000, ttlSeconds := 21600,
                       payload := 3, lastErrorAt := none, lastErrorMessage := none } true 1700000000000,
          some { key := "poi:bbox1", fetchedAt := 1690000000000, ttlSeconds := 21600,
                 payload := 3, lastErrorAt := none, lastErrorMessage := none }) :=
  getOrFetchSignal_offline "poi:bbox1" 21600 (Except.ok 7)
    (some { forceRefresh := none, allowNetwork := some false, allowStale := none })
    { key := "poi:bbox1", fetchedAt := 1690000000000, ttlSeconds := 21600,
      payload := 3, lastErrorAt := none, lastErrorMessage := none } 1700000000000 rfl

/-- C8: when the cached entry for a key carries a `lastErrorAt` less than
5 minutes (300 seconds) before `now`, every call that gets past the
fresh-or-allowStale shortcut (because `forceRefresh` is set, or because
the entry is neither valid nor allowed stale) returns the cached payload
without examining the fetcher outcome, with `fromCache = true` and the
stored `lastErrorMessage` in the returned metadata, and writes nothing. -/
theorem getOrFetchSignal_cooldown {T : Type} (key : String) (ttlSeconds : ℚ)
    (fetchResult : Except JsError T) (options : Option SignalOptions)
    (c : SignalCache T) (now t : ℤ)
    (herr : c.lastErrorAt = some t)
    (hrecent : now - t < COOLDOWN_SECONDS * 1000)
    (hshort : (options.bind SignalOptions.forceRefresh).getD false = true ∨
      (isCacheValid c now = false ∧ (options.bind SignalOptions.allowStale).getD false = false)) :
    getOrFetchSignal key ttlSeconds fetchResult options (some c) now =
      Except.ok (buildResult c true now, some c) ∧
    (buildResult c true now).meta.fromCache = true ∧
    (buildResult c true now).meta.lastErrorMessage = c.lastErrorMessage := by
  have hcool : isInCooldown c now = true := by
    simp [isInCooldown, herr, hrecent]
  refine ⟨?_, rfl, rfl⟩
  rcases hshort with h | ⟨h1, h2⟩
  · simp [getOrFetchSignal, h, hcool]
  · simp [getOrFetchSignal, h1, h2, hcool]

/-- Witness for C8: a 2-hour-old entry with TTL 6h whose last error was
1 minute ago, read with `forceRefresh = true`: the cooldown branch serves
the cached payload and metadata. -/
theorem getOrFetchSignal_cooldown_witness :
    getOrFetchSignal "weather:spot" 21600 (Except.ok (9 : ℕ))
        (some { forceRefresh := some true, allowNetwork := none, allowStale := none })
        (some { key := "weather:spot", fetchedAt := 1700000000000 - 7200000,
                ttlSeconds := 21600, payload := 4,
                lastErrorAt := some (1700000000000 - 60000),
                lastErrorMessage := some "HTTP 500" }) 1700000000000 =
      Except.ok
        (buildResult { key := "weather:spot", fetchedAt := 1700000000000 - 7200000,
                       ttlSeconds := 21600, payload := 4,
                       lastErrorAt := some (1700000000000 - 60000),
                       lastErrorMessage := some "HTTP 500" } true 1700000000000,
          some { key := "weather:spot", fetchedAt := 1700000000000 - 7200000,
                 ttlSeconds := 21600, payload := 4,
                 lastErrorAt := some (1700000000000 - 60000),
                 lastErrorMessage := some "HTTP 500" }) ∧
    (buildResult { key := "weather:spot", fetchedAt := 1700000000000 - 7200000,
                   ttlSeconds := 21600, payload := (4 : ℕ),
                   lastErrorAt := some (1700000000000 - 60000),
                   lastErrorMessage := some "HTTP 500" } true 1700000000000).meta.lastErrorMessage =
      some "HTTP 500" := by
  refine ⟨?_, ?_⟩
  · exact (getOrFetchSignal_cooldown "weather:spot" 21600 (Except.ok 9)
      (some { forceRefresh := some true, allowNetwork := none, allowStale := none })
      { key := "weather:spot", fetchedAt := 1700000000000 - 7200000,
        ttlSeconds := 21600, payload := 4,
        lastErrorAt := some (1700000000000 - 60000),
        lastErrorMessage := some "HTTP 500" } 1700000000000 (1700000000000 - 60000)
      rfl (by decide) (Or.inl rfl)).1
  · exact (getOrFetchSignal_cooldown "weather:spot" 21600 (Except.ok 9)
      (some { forceRefresh := some true, allowNetwork := none, allowStale := none })
      { key := "weather:spot", fetchedAt := 1700000000000 - 7200000,
        ttlSeconds := 21600, payload := 4,
        lastErrorAt := some (1700000000000 - 60000),
        lastErrorMessage := some "HTTP 500" } 1700000000000 (1700000000000 - 60000)
      rfl (by decide) (Or.inl rfl)).2.2

/-- C2: when `getOrFetchSignal` actually attempts the fetch (network
allowed, past the shortcut and cooldown branches) and the fetcher throws:
with an existing cache entry, the store is rewritten with only
`lastErrorAt`/`lastErrorMessage` updated (payload field unchanged) and
that stale payload is returned with `fromCache = true`; with no cache
entry, the same thrown error propagates to the caller. -/
theorem getOrFetchSignal_fetch_failure {T : Type} (key : String) (ttlSeconds : ℚ)
    (e : JsError) (options : Option SignalOptions) (c : SignalCache T) (now : ℤ)
    (hnet : (options.bind SignalOptions.allowNetwork).getD true = true)
    (hshort : (options.bind SignalOptions.forceRefresh).getD false = true ∨
      (isCacheValid c now = false ∧ (options.bind SignalOptions.allowStale).getD false = false))
    (hcool : isInCooldown c now = false) :
    getOrFetchSignal key ttlSeconds (Except.error e) options (some c) now =
      Except.ok
        (buildResult { c with lastErrorAt := some now
                              lastErrorMessage := some (errMessage e) } true now,
          some { c with lastErrorAt := some now
                        lastErrorMessage := some (errMessage e) }) ∧
    ({ c with lastErrorAt := some now
              lastErrorMessage := some (errMessage e) } : SignalCache T).payload = c.payload ∧
    (buildResult { c with lastErrorAt := some now
                          lastErrorMessage := some (errMessage e) } true now).payload = c.payload ∧
    (buildResult { c with lastErrorAt := some now
                          lastErrorMessage := some (errMessage e) } true now).meta.fromCache = true ∧
    getOrFetchSignal key ttlSeconds (Except.error e) options
      (none : Option (SignalCache T)) now = Except.error e := by
  refine ⟨?_, rfl, rfl, rfl, ?_⟩
  · rcases hshort with h | ⟨h1, h2⟩
    · simp [getOrFetchSignal, h, hcool, hnet]
    · simp [getOrFetchSignal, h1, h2, hcool, hnet]
  · simp [getOrFetchSignal, hnet]

/-- Witness for C2: a stale, cooldown-free entry with default options and
a fetcher that throws `Error("timeout")` — the entry is patched with the
error metadata, its payload `11` survives, and the empty-store call
propagates the same error. -/
theorem getOrFetchSignal_fetch_failure_witness :
    getOrFetchSignal "poi:bbox1" 21600 (Except.error (JsError.error "timeout")) none
        (some { key := "poi:bbox1", fetchedAt := 0, ttlSeconds := 21600,
                payload := (11 : ℕ), lastErrorAt := none, lastErrorMessage := none })
        1700000000000 =
      Except.ok
        (buildResult { key := "poi:bbox1", fetchedAt := 0, ttlSeconds := 21600,
                       payload := (11 : ℕ), lastErrorAt := some 1700000000000,
                       lastErrorMessage := some "timeout" } true 1700000000000,
          some { key := "poi:bbox1", fetchedAt := 0, ttlSeconds := 21600,
                 payload := (11 : ℕ), lastErrorAt := some 1700000000000,
                 lastErrorMessage := some "timeout" }) ∧
    getOrFetchSignal "poi:bbox1" 21600 (Except.error (JsError.error "timeout")) none
        (none : Option (SignalCache ℕ)) 1700000000000 =
      Except.error (JsError.error "timeout") := by
  have h := getOrFetchSignal_fetch_failure "poi:bbox1" 21600 (JsError.error "timeout") none
    { key := "poi:bbox1", fetchedAt := 0, ttlSeconds := 21600,
      payload := (11 : ℕ), lastErrorAt := none, lastErrorMessage := none } 1700000000000
    rfl (Or.inr ⟨by norm_num [isCacheValid], rfl⟩) rfl
  exact ⟨h.1, h.2.2.2.2⟩

/-- Counterexample for C5 as stated for EVERY entry and instant: the two
freshness computations are not both `now - fetchedAt < ttlSeconds`.
(a) A fractional TTL of 0.5s with age 700ms: the claimed condition
(0.7 < 0.5) is false and `isCacheValid` agrees, yet `meta.isFresh` is
true because the age is floored to 0 whole seconds before the compare.
(b) A future-dated `fetchedAt` (1000ms after `now`) with TTL 0: the
claimed condition (-1 < 0) is true and `isCacheValid` agrees, yet
`meta.isFresh` is false because the age is clamped up to 0. -/
theorem cache_freshness_counterexample :
    ((buildResult ({ key := "poi", fetchedAt := 0, ttlSeconds := 1/2, payload := 0,
                     lastErrorAt := none, lastErrorMessage := none } : SignalCache ℕ)
          true 700).meta.isFresh
        = true ∧
      ¬ ((((700 : ℤ) - 0 : ℤ) : ℚ) / 1000 < 1/2) ∧
      isCacheValid ({ key := "poi", fetchedAt := 0, ttlSeconds := 1/2, payload := 0,
                      lastErrorAt := none, lastErrorMessage := none } : SignalCache ℕ)
          700 = false) ∧
    ((buildResult ({ key := "poi", fetchedAt := 1000, ttlSeconds := 0, payload := 0,
                     lastErrorAt := none, lastErrorMessage := none } : SignalCache ℕ)
          true 0).meta.isFresh
        = false ∧
      ((((0 : ℤ) - 1000 : ℤ) : ℚ) / 1000 < 0) ∧
      isCacheValid ({ key := "poi", fetchedAt := 1000, ttlSeconds := 0, payload := 0,
                      lastErrorAt := none, lastErrorMessage := none } : SignalCache ℕ)
          0 = true) := by
  refine ⟨⟨?_, ?_, ?_⟩, ⟨?_, ?_, ?_⟩⟩ <;>
    norm_num [buildResult, getAgeSeconds, isCacheValid]

/-- C5 (amended): for entries whose `ttlSeconds` is a whole number of
seconds and whose `fetchedAt` is not in the future of the read instant,
freshness is `((now - fetchedAt) in ms) / 1000 < ttlSeconds` in both the
network-skipping validity check and the returned `meta.isFresh`; a read
exactly at the TTL boundary is stale in both, with `meta.isStale = true`;
and a stale entry served through the `allowStale` path is returned with
the store left unchanged (no write). -/
theorem cache_freshness_amended {T : Type} (c : SignalCache T) (now n : ℤ) (fc : Bool)
    (key2 : String) (ttl2 : ℚ) (fetchResult : Except JsError T)
    (httl : c.ttlSeconds = (n : ℚ)) (hpast : c.fetchedAt ≤ now) :
    (isCacheValid c now = true ↔ ((now - c.fetchedAt : ℤ) : ℚ) / 1000 < c.ttlSeconds) ∧
    ((buildResult c fc now).meta.isFresh = true ↔
      ((now - c.fetchedAt : ℤ) : ℚ) / 1000 < c.ttlSeconds) ∧
    (((now - c.fetchedAt : ℤ) : ℚ) / 1000 = c.ttlSeconds →
      isCacheValid c now = false ∧ (buildResult c fc now).meta.isFresh = false ∧
        (buildResult c fc now).meta.isStale = true) ∧
    getOrFetchSignal key2 ttl2 fetchResult
        (some { forceRefresh := some false, allowNetwork := none, allowStale := some true })
        (some c) now = Except.ok (buildResult c true now, some c) := by
  have hms : (0 : ℚ) ≤ ((now - c.fetchedAt : ℤ) : ℚ) := by
    have h0 : (0 : ℤ) ≤ now - c.fetchedAt := by omega
    exact_mod_cast h0
  have h1 : isCacheValid c now = true ↔
      ((now - c.fetchedAt : ℤ) : ℚ) / 1000 < c.ttlSeconds := by
    simp only [isCacheValid, decide_eq_true_eq]
    rw [div_lt_iff (by norm_num : (0 : ℚ) < 1000)]
  have hage : getAgeSeconds c.fetchedAt now =
      some ⌊((now - c.fetchedAt : ℤ) : ℚ) / 1000⌋ := by
    unfold getAgeSeconds
    congr 1
    exact max_eq_right (Int.floor_nonneg.mpr (by positivity))
  have h2 : (buildResult c fc now).meta.isFresh = true ↔
      ((now - c.fetchedAt : ℤ) : ℚ) / 1000 < c.ttlSeconds := by
    simp only [buildResult, hage, decide_eq_true_eq]
    rw [httl]
    constructor
    · intro h
      have hf : ⌊((now - c.fetchedAt : ℤ) : ℚ) / 1000⌋ < n := by exact_mod_cast h
      exact Int.floor_lt.mp hf
    · intro h
      have hf : ⌊((now - c.fetchedAt : ℤ) : ℚ) / 1000⌋ < n := Int.floor_lt.mpr h
      exact_mod_cast hf
  refine ⟨h1, h2, ?_, ?_⟩
  · intro heq
    have hnot : ¬ (((now - c.fetchedAt : ℤ) : ℚ) / 1000 < c.ttlSeconds) := by
      rw [heq]
      exact lt_irrefl _
    have hv : isCacheValid c now = false := by
      rw [Bool.eq_false_iff]
      intro hh
      exact hnot (h1.mp hh)
    have hf : (buildResult c fc now).meta.isFresh = false := by
      rw [Bool.eq_false_iff]
      intro hh
      exact hnot (h2.mp hh)
    have hstale : (buildResult c fc now).meta.isStale =
        !(buildResult c fc now).meta.isFresh := rfl
    refine ⟨hv, hf, ?_⟩
    rw [hstale, hf]
    rfl
  · simp [getOrFetchSignal]

/-- Concrete cache entry used by the C5 witness: fetched at epoch 0 with
a 60-second TTL, read 1 second later. -/
def freshnessEntry : SignalCache ℕ :=
  { key := "w", fetchedAt := 0, ttlSeconds := 60, payload := 0,
    lastErrorAt := none, lastErrorMessage := none }

/-- Witness for C5 (amended) at a concrete entry: integer TTL 60s,
age 1000ms. -/
theorem cache_freshness_amended_witness :
    (isCacheValid freshnessEntry 1000 = true ↔
      ((1000 - freshnessEntry.fetchedAt : ℤ) : ℚ) / 1000 < freshnessEntry.ttlSeconds) ∧
    ((buildResult freshnessEntry true 1000).meta.isFresh = true ↔
      ((1000 - freshnessEntry.fetchedAt : ℤ) : ℚ) / 1000 < freshnessEntry.ttlSeconds) ∧
    (((1000 - freshnessEntry.fetchedAt : ℤ) : ℚ) / 1000 = freshnessEntry.ttlSeconds →
      isCacheValid freshnessEntry 1000 = false ∧
      (buildResult freshnessEntry true 1000).meta.isFresh = false ∧
      (buildResult freshnessEntry true 1000).meta.isStale = true) ∧
    getOrFetchSignal "poi:bbox1" 3600 (Except.ok 5)
        (some { forceRefresh := some false, allowNetwork := none, allowStale := some true })
        (some freshnessEntry) 1000 =
      Except.ok (buildResult freshnessEntry true 1000, some freshnessEntry) :=
  cache_freshness_amended freshnessEntry 1000 60 true "poi:bbox1" 3600 (Except.ok 5)
    (by norm_num [freshnessEntry]) (by decide)

/-! ## Geo-binning (src/lib/grid.ts) -/

/-- Type `PointInput` from `grid.ts`; `value` may be omitted. -/
structure PointInput where
  lat : ℝ
  lon : ℝ
  value : Option ℝ

/-- Type `CellAggregate` from `grid.ts`. -/
structure CellAggregate where
  key : String
  value : ℝ

/-- Source `latLonToCellKey(lat, lon, cellSizeMeters)` from `grid.ts`: fixed-size
degree bins (latitude degree ~111320 m), key string `i:j` from the floored
bin indices. -/
noncomputable def latLonToCellKey (lat lon cellSizeMeters : ℝ) : String :=
  let degLat := cellSizeMeters / 111320
  let degLon := cellSizeMeters / (111320 * Real.cos (lat * Real.pi / 180))
  let i := ⌊lat / degLat⌋
  let j := ⌊lon / degLon⌋
  toString i ++ ":" ++ toString j

/-- Source `bins.set(key, (bins.get(key) ?? 0) + value)` on a JS `Map`, modelled
on the association list of the map's entries in insertion order: the first
entry with the key is updated in place, a missing key is appended. -/
def binsAdd : List (String × ℝ) → String → ℝ → List (String × ℝ)
  | [], key, value => [(key, value)]
  | (k, v) :: rest, key, value =>
      if k = key then (k, v + value) :: rest
      else (k, v) :: binsAdd rest key value

/-- Source `binPointsToCells(points, cellSizeMeters)` from `grid.ts`: fold the
points into the bins map (value defaulting to 1) and return the entries
as `CellAggregate`s. -/
noncomputable def binPointsToCells (points : List PointInput) (cellSizeMeters : ℝ) :
    List CellAggregate :=
  (points.foldl
      (fun bins point =>
        binsAdd bins (latLonToCellKey point.lat point.lon cellSizeMeters)
          (point.value.getD 1))
      []).map (fun entry => { key := entry.1, value := entry.2 })

/-- One `binsAdd` step adds exactly the inserted value to the total of the
binned values. -/
theorem binsAdd_snd_sum (bins : List (String × ℝ)) (key : String) (value : ℝ) :
    ((binsAdd bins key value).map Prod.snd).sum = (bins.map Prod.snd).sum + value := by
  induction bins with
  | nil => simp [binsAdd]
  | cons head rest ih =>
    obtain ⟨k, v⟩ := head
    by_cases h : k = key
    · simp only [binsAdd, if_pos h, List.map_cons, List.sum_cons]
      ring
    · simp only [binsAdd, if_neg h, List.map_cons, List.sum_cons, ih]
      ring

/-- Folding points into the bins adds the total of their (defaulted)
values to the total already binned. -/
theorem binFold_snd_sum (points : List PointInput) (cellSizeMeters : ℝ) :
    ∀ bins : List (String × ℝ),
      ((points.foldl
          (fun b p => binsAdd b (latLonToCellKey p.lat p.lon cellSizeMeters)
            (p.value.getD 1)) bins).map Prod.snd).sum =
        (bins.map Prod.snd).sum + (points.map (fun p => p.value.getD 1)).sum := by
  induction points with
  | nil =>
    intro bins
    simp
  | cons p rest ih =>
    intro bins
    simp only [List.foldl_cons, List.map_cons, List.sum_cons]
    rw [ih, binsAdd_snd_sum]
    ring

/-- C4: geo-binning conserves mass and is pure — an empty point list bins
to the empty list, the aggregated values of `binPointsToCells` sum to the
sum of the input values (an absent value counting as 1), and the cell key
is a function of (lat, lon, cell size) alone: equal coordinates always
receive equal keys. -/
theorem binPointsToCells_conservation (points : List PointInput) (cellSizeMeters : ℝ)
    (la lo la2 lo2 : ℝ) (hla : la = la2) (hlo : lo = lo2) :
    binPointsToCells [] cellSizeMeters = [] ∧
    ((binPointsToCells points cellSizeMeters).map CellAggregate.value).sum =
      (points.map (fun p => p.value.getD 1)).sum ∧
    latLonToCellKey la lo cellSizeMeters = latLonToCellKey la2 lo2 cellSizeMeters := by
  refine ⟨rfl, ?_, by rw [hla, hlo]⟩
  unfold binPointsToCells
  rw [List.map_map]
  have hcomp : CellAggregate.value ∘
      (fun entry : String × ℝ => { key := entry.1, value := entry.2 : CellAggregate }) =
      Prod.snd := rfl
  rw [hcomp, binFold_snd_sum]
  simp

/-- Concrete point list for the C4 witness: two points in the same spot
(one with the value defaulted, one with value 3) and one elsewhere. -/
noncomputable def witnessPoints : List PointInput :=
  [ { lat := -6.2, lon := 106.8, value := none }
  , { lat := -6.2, lon := 106.8, value := some 3 }
  , { lat := -6.9, lon := 107.6, value := some 2 } ]

/-- Witness for C4 at a concrete point list and 500 m cells. -/
theorem binPointsToCells_conservation_witness :
    binPointsToCells [] 500 = [] ∧
    ((binPointsToCells witnessPoints 500).map CellAggregate.value).sum =
      (witnessPoints.map (fun p => p.value.getD 1)).sum ∧
    latLonToCellKey (-6.2) 106.8 500 = latLonToCellKey (-6.2) 106.8 500 :=
  binPointsToCells_conservation witnessPoints 500 (-6.2) 106.8 (-6.2) 106.8 rfl rfl

/-! ## Feature builder (first half of src/lib/engine/features.ts)

External primitives are parameters of the embedding: `latLngToCell` /
`cellToLatLng` come from the opaque h3-js cell-indexing library, and
`getHours` / `getDay` are the locale-dependent `Date#getHours` /
`Date#getDay` used by `timeBucket` and `dow`. -/

/-- Type `LatLon` from `features.ts`. -/
structure LatLon where
  lat : ℝ
  lon : ℝ

/-- A `Trip` as consumed by `buildCellFeatures`: nullable start
coordinates, parsed start/end timestamps, earnings. -/
structure Trip where
  startLat : Option ℝ
  startLon : Option ℝ
  startedAt : ℤ
  endedAt : ℤ
  earnings : ℝ

/-- The `Settings` fields consumed by `buildCellFeatures`. -/
structure Settings where
  costPerKm : ℝ
  preferredH3Res : ℕ

/-- One element of `WeatherSummary.hourly`. -/
structure HourlyEntry where
  time : ℤ
  precipitationProbability : ℝ

/-- Type `WeatherSummary` from `features.ts`. -/
structure WeatherSummary where
  hourly : List HourlyEntry

/-- The external primitives `buildCellFeatures` calls. -/
structure GeoPrimitives where
  latLngToCell : ℝ → ℝ → ℕ → String
  cellToLatLng : String → ℝ × ℝ
  getHours : ℤ → ℤ
  getDay : ℤ → ℤ

/-- Source `haversineKm(a, b)` from `features.ts`: great-circle distance with
Earth radius 6371 km. -/
noncomputable def haversineKm (a b : LatLon) : ℝ :=
  let toRad := fun (value : ℝ) => value * Real.pi / 180
  let dLat := toRad (b.lat - a.lat)
  let dLon := toRad (b.lon - a.lon)
  let lat1 := toRad a.lat
  let lat2 := toRad b.lat
  let h := Real.sin (dLat / 2) * Real.sin (dLat / 2) +
    Real.cos lat1 * Real.cos lat2 * Real.sin (dLon / 2) * Real.sin (dLon / 2)
  2 * 6371 * Real.arcsin (Real.sqrt h)

/-- Source `computeRainRiskNext3h(weather, now)` from `features.ts`: maximum
precipitation probability over the hourly entries in [now, now+3h],
divided by 100 and clamped to [0,1]; 0 when the summary is absent or the
window is empty. -/
noncomputable def computeRainRiskNext3h (weather : Option WeatherSummary) (now : ℤ) : ℝ :=
  match weather with
  | none => 0
  | some w =>
      let horizonMs := now + 3 * 60 * 60 * 1000
      match w.hourly.filter
          (fun entry => decide (now ≤ entry.time) && decide (entry.time ≤ horizonMs)) with
      | [] => 0
      | first :: rest =>
          let maxRisk := rest.foldl
            (fun acc entry => max acc entry.precipitationProbability)
            first.precipitationProbability
          min (max (maxRisk / 100) 0) 1

/-- The per-trip duration accumulated by `buildCellFeatures`:
`Math.max((endedAt - startedAt) / 3_600_000, 0.1)` hours. -/
noncomputable def tripDurationHours (trip : Trip) : ℝ :=
  max (((trip.endedAt - trip.startedAt : ℤ) : ℝ) / 3600000) 0.1

/-- The mutable accumulator of the `trips.forEach` loop in
`buildCellFeatures`: trip count, earnings sum, hours sum, latest end. -/
structure TripAccum where
  internalCount : ℕ
  earningsSum : ℝ
  hoursSum : ℝ
  latestTripMs : ℤ

/-- One iteration of the `trips.forEach` loop: skip trips without start
coordinates, re-bin the start at the preferred resolution, and accumulate
when the trip falls in the target cell. -/
noncomputable def tripStep (latLngToCell : ℝ → ℝ → ℕ → String) (cellH3 : String)
    (res : ℕ) (acc : TripAccum) (trip : Trip) : TripAccum :=
  match trip.startLat, trip.startLon with
  | some lat, some lon =>
      if latLngToCell lat lon res = cellH3 then
        { internalCount := acc.internalCount + 1
          earningsSum := acc.earningsSum + trip.earnings
          hoursSum := acc.hoursSum + tripDurationHours trip
          latestTripMs := max acc.latestTripMs trip.endedAt }
      else acc
  | _, _ => acc

/-- The whole `trips.forEach` accumulation of `buildCellFeatures`,
starting from zeroes. -/
noncomputable def tripAccumOf (latLngToCell : ℝ → ℝ → ℕ → String) (cellH3 : String)
    (res : ℕ) (trips : List Trip) : TripAccum :=
  trips.foldl (tripStep latLngToCell cellH3 res)
    { internalCount := 0, earningsSum := 0, hoursSum := 0, latestTripMs := 0 }

/-- The denominator `1 + daysSince` of the recency score, where
`daysSince = (now - latestTripMs) / 86_400_000` days. -/
noncomputable def recencyDen (now latestTripMs : ℤ) : ℝ :=
  1 + ((now - latestTripMs : ℤ) : ℝ) / 86400000

/-- Source `buildCellFeatures` from `features.ts`.  The `latestTripMs ? ... :
Infinity` truthiness test and the `Number.isFinite` guard combine so that
the recency score is `1 / (1 + daysSince)` exactly when `latestTripMs`
ended up non-zero, and 0 otherwise. -/
noncomputable def buildCellFeatures (geo : GeoPrimitives) (cellH3 : String)
    (userLatLon : LatLon) (trips : List Trip) (poiCells : Option (String → Option ℝ))
    (weather : Option WeatherSummary) (now : ℤ) (settings : Settings) : CellFeatures :=
  let acc := tripAccumOf geo.latLngToCell cellH3 settings.preferredH3Res trips
  let internalEph := if acc.hoursSum > 0 then acc.earningsSum / acc.hoursSum else 0
  let recencyScore := if acc.latestTripMs ≠ 0 then 1 / recencyDen now acc.latestTripMs else 0
  let poiCount := match poiCells with
    | some cells => (cells cellH3).getD 0
    | none => 0
  let rainRiskNext3h := computeRainRiskNext3h weather now
  let centroid := geo.cellToLatLng cellH3
  let travelKm := haversineKm userLatLon { lat := centroid.1, lon := centroid.2 }
  { internalEph := internalEph
    internalCount := acc.internalCount
    recencyScore := recencyScore
    poiCount := poiCount
    rainRiskNext3h := rainRiskNext3h
    travelKm := travelKm
    travelCost := travelKm * settings.costPerKm
    hour := geo.getHours now
    dow := geo.getDay now }

/-- The hours sum of the trip accumulation is either 0 (no matching trip)
or at least 0.1 (each matching trip contributes at least 0.1h). -/
theorem tripFold_hoursSum_inv (f : ℝ → ℝ → ℕ → String) (cellH3 : String) (res : ℕ) :
    ∀ (trips : List Trip) (acc : TripAccum),
      (acc.hoursSum = 0 ∨ acc.hoursSum ≥ 0.1) →
      ((trips.foldl (tripStep f cellH3 res) acc).hoursSum = 0 ∨
        (trips.foldl (tripStep f cellH3 res) acc).hoursSum ≥ 0.1) := by
  intro trips
  induction trips with
  | nil =>
    intro acc h
    simpa using h
  | cons t rest ih =>
    intro acc h
    simp only [List.foldl_cons]
    apply ih
    have hnn : acc.hoursSum ≥ 0 := by
      rcases h with h | h
      · rw [h]
      · linarith
    rcases hsl : t.startLat with _ | lat <;> rcases hso : t.startLon with _ | lon <;>
      simp only [tripStep, hsl, hso]
    · exact h
    · exact h
    · exact h
    · split
      · right
        have hdur : tripDurationHours t ≥ 0.1 := le_max_right _ _
        simp only [TripAccum.hoursSum]
        linarith
      · exact h

/-- When every trip ends at or before `now`, the accumulated latest end
timestamp is either 0 (the JS-falsy initial value) or at most `now`. -/
theorem tripFold_latest_inv (f : ℝ → ℝ → ℕ → String) (cellH3 : String) (res : ℕ)
    (now : ℤ) :
    ∀ (trips : List Trip), (∀ t ∈ trips, t.endedAt ≤ now) →
      ∀ acc : TripAccum, (acc.latestTripMs = 0 ∨ acc.latestTripMs ≤ now) →
      ((trips.foldl (tripStep f cellH3 res) acc).latestTripMs = 0 ∨
        (trips.foldl (tripStep f cellH3 res) acc).latestTripMs ≤ now) := by
  intro trips
  induction trips with
  | nil =>
    intro _ acc h
    simpa using h
  | cons t rest ih =>
    intro hall acc h
    have hend : t.endedAt ≤ now := hall t (List.mem_cons_self t rest)
    have hrest : ∀ u ∈ rest, u.endedAt ≤ now := fun u hu => hall u (List.mem_cons_of_mem t hu)
    simp only [List.foldl_cons]
    apply ih hrest
    rcases hsl : t.startLat with _ | lat <;> rcases hso : t.startLon with _ | lon <;>
      simp only [tripStep, hsl, hso]
    · exact h
    · exact h
    · exact h
    · split
      · simp only [TripAccum.latestTripMs]
        rcases h with h | h
        · rw [h]
          rcases le_or_lt t.endedAt 0 with he | he
          · left
            exact max_eq_left he
          · right
            rw [max_eq_right (le_of_lt he)]
            exact hend
        · right
          exact max_le h hend
      · exact h

/-- Counterexample for C9 as stated for EVERY trip list: the recency
denominator `1 + daysSince` is not bounded away from zero.  A matching
trip that ends exactly 24 hours after `now` drives `daysSince` to -1, so
the recency score produced by `buildCellFeatures` is `1 / 0` (`Infinity`
in the JS source) — a division by zero escapes the core. -/
theorem recency_denominator_counterexample :
    (tripAccumOf (fun _ _ _ => "a") "a" 9
        [{ startLat := some 0, startLon := some 0, startedAt := 0,
           endedAt := 86400000, earnings := 0 }]).latestTripMs ≠ 0 ∧
    recencyDen 0 (tripAccumOf (fun _ _ _ => "a") "a" 9
        [{ startLat := some 0, startLon := some 0, startedAt := 0,
           endedAt := 86400000, earnings := 0 }]).latestTripMs = 0 ∧
    (buildCellFeatures
        { latLngToCell := fun _ _ _ => "a", cellToLatLng := fun _ => (0, 0),
          getHours := fun _ => 0, getDay := fun _ => 0 }
        "a" { lat := 0, lon := 0 }
        [{ startLat := some 0, startLon := some 0, startedAt := 0,
           endedAt := 86400000, earnings := 0 }]
        none none 0 { costPerKm := 250, preferredH3Res := 9 }).recencyScore =
      1 / recencyDen 0 (tripAccumOf (fun _ _ _ => "a") "a" 9
        [{ startLat := some 0, startLon := some 0, startedAt := 0,
           endedAt := 86400000, earnings := 0 }]).latestTripMs := by
  have hacc : (tripAccumOf (fun _ _ _ => "a") "a" 9
      [{ startLat := some 0, startLon := some 0, startedAt := 0,
         endedAt := 86400000, earnings := 0 }]).latestTripMs = 86400000 := by
    simp [tripAccumOf, tripStep]
  refine ⟨by rw [hacc]; decide, ?_, ?_⟩
  · rw [hacc]
    unfold recencyDen
    norm_num
  · have hb : (buildCellFeatures
        { latLngToCell := fun _ _ _ => "a", cellToLatLng := fun _ => (0, 0),
          getHours := fun _ => 0, getDay := fun _ => 0 }
        "a" { lat := 0, lon := 0 }
        [{ startLat := some 0, startLon := some 0, startedAt := 0,
           endedAt := 86400000, earnings := 0 }]
        none none 0 { costPerKm := 250, preferredH3Res := 9 }).recencyScore =
        if (tripAccumOf (fun _ _ _ => "a") "a" 9
            [{ startLat := some 0, startLon := some 0, startedAt := 0,
               endedAt := 86400000, earnings := 0 }]).latestTripMs ≠ 0 then
          1 / recencyDen 0 (tripAccumOf (fun _ _ _ => "a") "a" 9
            [{ startLat := some 0, startLon := some 0, startedAt := 0,
               endedAt := 86400000, earnings := 0 }]).latestTripMs
        else 0 := rfl
    rw [hb, hacc]
    norm_num

/-- C9 (amended): provided every trip in the list ends at or before the
read instant `now`, every division in the core is guarded: each matching
trip contributes `max(durationHours, 0.1) ≥ 0.1` to the hours sum, the
hours sum is 0 or at least 0.1, `internalEph` is `earningsSum / hoursSum`
exactly when the hours sum is positive and 0 otherwise, the recency
denominator is at least 1 whenever the recency division is taken and the
score falls back to 0 when no trip matched, and the weight updater
divides only by `safePred = max(predicted, 1) ≥ 1`. -/
theorem division_safety_amended (geo : GeoPrimitives) (cellH3 : String)
    (userLatLon : LatLon) (trips : List Trip) (poiCells : Option (String → Option ℝ))
    (weather : Option WeatherSummary) (now : ℤ) (settings : Settings)
    (trip : Trip) (p : ℝ)
    (hpast : ∀ t ∈ trips, t.endedAt ≤ now) :
    tripDurationHours trip ≥ 0.1 ∧
    ((tripAccumOf geo.latLngToCell cellH3 settings.preferredH3Res trips).hoursSum = 0 ∨
      (tripAccumOf geo.latLngToCell cellH3 settings.preferredH3Res trips).hoursSum ≥ 0.1) ∧
    ((tripAccumOf geo.latLngToCell cellH3 settings.preferredH3Res trips).hoursSum > 0 →
      (buildCellFeatures geo cellH3 userLatLon trips poiCells weather now settings).internalEph =
        (tripAccumOf geo.latLngToCell cellH3 settings.preferredH3Res trips).earningsSum /
          (tripAccumOf geo.latLngToCell cellH3 settings.preferredH3Res trips).hoursSum) ∧
    ((tripAccumOf geo.latLngToCell cellH3 settings.preferredH3Res trips).hoursSum = 0 →
      (buildCellFeatures geo cellH3 userLatLon trips poiCells weather now settings).internalEph
        = 0) ∧
    ((tripAccumOf geo.latLngToCell cellH3 settings.preferredH3Res trips).latestTripMs ≠ 0 →
      recencyDen now
          (tripAccumOf geo.latLngToCell cellH3 settings.preferredH3Res trips).latestTripMs ≥ 1 ∧
      (buildCellFeatures geo cellH3 userLatLon trips poiCells weather now settings).recencyScore =
        1 / recencyDen now
          (tripAccumOf geo.latLngToCell cellH3 settings.preferredH3Res trips).latestTripMs) ∧
    ((tripAccumOf geo.latLngToCell cellH3 settings.preferredH3Res trips).latestTripMs = 0 →
      (buildCellFeatures geo cellH3 userLatLon trips poiCells weather now settings).recencyScore
        = 0) ∧
    safePred p ≥ 1 := by
  set A := tripAccumOf geo.latLngToCell cellH3 settings.preferredH3Res trips with hA
  have hie : (buildCellFeatures geo cellH3 userLatLon trips poiCells weather now
      settings).internalEph = if A.hoursSum > 0 then A.earningsSum / A.hoursSum else 0 := rfl
  have hrs : (buildCellFeatures geo cellH3 userLatLon trips poiCells weather now
      settings).recencyScore =
      if A.latestTripMs ≠ 0 then 1 / recencyDen now A.latestTripMs else 0 := rfl
  refine ⟨le_max_right _ _, ?_, ?_, ?_, ?_, ?_, le_max_right _ _⟩
  · rw [hA]
    unfold tripAccumOf
    exact tripFold_hoursSum_inv _ _ _ trips _ (Or.inl rfl)
  · intro h
    rw [hie, if_pos h]
  · intro h
    rw [hie, if_neg (by rw [h]; exact lt_irrefl 0)]
  · intro h
    have hlat : A.latestTripMs = 0 ∨ A.latestTripMs ≤ now := by
      rw [hA]
      unfold tripAccumOf
      exact tripFold_latest_inv _ _ _ now trips hpast _ (Or.inl rfl)
    have hle : A.latestTripMs ≤ now := by
      rcases hlat with h0 | hle
      · exact absurd h0 h
      · exact hle
    refine ⟨?_, by rw [hrs, if_pos h]⟩
    unfold recencyDen
    have hq : (0 : ℝ) ≤ ((now - A.latestTripMs : ℤ) : ℝ) / 86400000 := by
      apply div_nonneg _ (by norm_num)
      have hz : (0 : ℤ) ≤ now - A.latestTripMs := by omega
      exact_mod_cast hz
    linarith
  · intro h
    rw [hrs, if_neg (not_not.mpr h)]

/-- External primitives used by the C9 witness: a constant cell mapping. -/
noncomputable def witnessGeo : GeoPrimitives :=
  { latLngToCell := fun _ _ _ => "cell", cellToLatLng := fun _ => (0, 0),
    getHours := fun _ => 0, getDay := fun _ => 0 }

/-- Trip used by the C9 witness: one 1-hour trip ending an hour before
the witness read instant. -/
noncomputable def witnessTrip : Trip :=
  { startLat := some 0, startLon := some 0, startedAt := 0,
    endedAt := 3600000, earnings := 50000 }

/-- Settings used by the C9 witness. -/
noncomputable def witnessSettings : Settings :=
  { costPerKm := 250, preferredH3Res := 9 }

/-- Witness for C9 (amended) at one concrete past trip, a constant cell
mapping, and a non-positive predicted score. -/
theorem division_safety_amended_witness :
    tripDurationHours witnessTrip ≥ 0.1 ∧
    ((tripAccumOf witnessGeo.latLngToCell "cell" witnessSettings.preferredH3Res
        [witnessTrip]).hoursSum = 0 ∨
      (tripAccumOf witnessGeo.latLngToCell "cell" witnessSettings.preferredH3Res
        [witnessTrip]).hoursSum ≥ 0.1) ∧
    ((tripAccumOf witnessGeo.latLngToCell "cell" witnessSettings.preferredH3Res
        [witnessTrip]).hoursSum > 0 →
      (buildCellFeatures witnessGeo "cell" { lat := 0, lon := 0 } [witnessTrip] none none
          7200000 witnessSettings).internalEph =
        (tripAccumOf witnessGeo.latLngToCell "cell" witnessSettings.preferredH3Res
          [witnessTrip]).earningsSum /
        (tripAccumOf witnessGeo.latLngToCell "cell" witnessSettings.preferredH3Res
          [witnessTrip]).hoursSum) ∧
    ((tripAccumOf witnessGeo.latLngToCell "cell" witnessSettings.preferredH3Res
        [witnessTrip]).hoursSum = 0 →
      (buildCellFeatures witnessGeo "cell" { lat := 0, lon := 0 } [witnessTrip] none none
          7200000 witnessSettings).internalEph = 0) ∧
    ((tripAccumOf witnessGeo.latLngToCell "cell" witnessSettings.preferredH3Res
        [witnessTrip]).latestTripMs ≠ 0 →
      recencyDen 7200000
          (tripAccumOf witnessGeo.latLngToCell "cell" witnessSettings.preferredH3Res
            [witnessTrip]).latestTripMs ≥ 1 ∧
      (buildCellFeatures witnessGeo "cell" { lat := 0, lon := 0 } [witnessTrip] none none
          7200000 witnessSettings).recencyScore =
        1 / recencyDen 7200000
          (tripAccumOf witnessGeo.latLngToCell "cell" witnessSettings.preferredH3Res
            [witnessTrip]).latestTripMs) ∧
    ((tripAccumOf witnessGeo.latLngToCell "cell" witnessSettings.preferredH3Res
        [witnessTrip]).latestTripMs = 0 →
      (buildCellFeatures witnessGeo "cell" { lat := 0, lon := 0 } [witnessTrip] none none
          7200000 witnessSettings).recencyScore = 0) ∧
    safePred (-5) ≥ 1 :=
  division_safety_amended witnessGeo "cell" { lat := 0, lon := 0 } [witnessTrip] none none
    7200000 witnessSettings witnessTrip (-5)
    (by
      intro t ht
      rw [List.mem_singleton] at ht
      subst ht
      decide)
